import Mathlib

set_option maxRecDepth 10000
set_option maxHeartbeats 1000000

/-!
Verification development for the Urban Explorer walking-tour application.

The application consists of:
* an Express server endpoint `/api/generate-tour` (structured JSON mode),
* two variants of a grounded `generateWalkingTour` service (one with
  category-specific food-tour instructions, one without),
* a React presentation layer whose `getFullRouteUrl` derives a Google-Maps
  route URL from the grounding chunks of a grounded itinerary.

This file embeds those functions as executable Lean definitions and proves
properties about them.  JavaScript strings are modelled as Lean `String`,
JSON numbers as `ℚ`, and JavaScript `undefined` as `Option.none`.
-/

/-! Generic Boolean substring machinery.

`listPre p s` decides whether `p` is a leading segment of `s`;
`listSub p s` decides whether `p` occurs contiguously inside `s`.
These model JavaScript's `String.prototype.includes` at the level of
character lists and are the vocabulary in which "the prompt contains the
guidance text" is stated. -/

def listPre {α : Type} [DecidableEq α] : List α → List α → Bool
  | [], _ => true
  | _ :: _, [] => false
  | a :: p, b :: s => if a = b then listPre p s else false

def listSub {α : Type} [DecidableEq α] : List α → List α → Bool
  | p, [] => listPre p []
  | p, b :: t => listPre p (b :: t) || listSub p t

theorem listPre_iff {α : Type} [DecidableEq α] (p s : List α) :
    listPre p s = true ↔ ∃ t, s = p ++ t := by
  induction p generalizing s with
  | nil => simp [listPre]
  | cons a p ih =>
    cases s with
    | nil => simp [listPre]
    | cons b s =>
      by_cases h : a = b
      · subst h
        simp [listPre, ih]
      · simp [listPre, h, Ne.symm h]

theorem listSub_iff {α : Type} [DecidableEq α] (p s : List α) :
    listSub p s = true ↔ ∃ x y, s = x ++ p ++ y := by
  induction s with
  | nil =>
    simp only [listSub, listPre_iff]
    constructor
    · rintro ⟨t, ht⟩
      exact ⟨[], t, ht⟩
    · rintro ⟨x, y, hxy⟩
      refine ⟨y, ?_⟩
      rcases List.append_eq_nil.1 (List.append_eq_nil.1 hxy.symm).1 with ⟨rfl, rfl⟩
      simpa using hxy
  | cons b t ih =>
    simp only [listSub, Bool.or_eq_true, listPre_iff, ih]
    constructor
    · rintro (⟨y, hy⟩ | ⟨x, y, rfl⟩)
      · exact ⟨[], y, by simpa using hy⟩
      · exact ⟨b :: x, y, rfl⟩
    · rintro ⟨x, y, hxy⟩
      cases x with
      | nil => exact Or.inl ⟨y, by simpa using hxy⟩
      | cons c x =>
        rw [List.cons_append, List.cons_append, List.cons_eq_cons] at hxy
        exact Or.inr ⟨x, y, hxy.2⟩

theorem listSub_middle {α : Type} [DecidableEq α] (x p y : List α) :
    listSub p (x ++ p ++ y) = true :=
  (listSub_iff p _).2 ⟨x, y, rfl⟩

theorem listSub_length {α : Type} [DecidableEq α] {p s : List α}
    (h : listSub p s = true) : p.length ≤ s.length := by
  obtain ⟨x, y, rfl⟩ := (listSub_iff p s).1 h
  simp only [List.length_append]
  omega

/-- Any occurrence of `g` inside `s₁ ++ s₂` either lies inside one of the two
parts or straddles the boundary, in which case `g` factors into a nonempty
suffix of `s₁` followed by a nonempty leading segment of `s₂`. -/
theorem listSub_split {α : Type} [DecidableEq α] {g s₁ s₂ : List α}
    (h : listSub g (s₁ ++ s₂) = true) :
    listSub g s₁ = true ∨ listSub g s₂ = true ∨
      ∃ g₁ g₂, g = g₁ ++ g₂ ∧ g₁ ≠ [] ∧ g₂ ≠ [] ∧ g₁ <:+ s₁ ∧ g₂ <+: s₂ := by
  obtain ⟨x, y, hxy⟩ := (listSub_iff g _).1 h
  rw [List.append_assoc] at hxy
  rcases List.append_eq_append_iff.1 hxy with ⟨a, _, hb⟩ | ⟨c, hc, hd⟩
  · rw [← List.append_assoc] at hb
    exact Or.inr (Or.inl ((listSub_iff g s₂).2 ⟨a, y, hb⟩))
  · rcases List.append_eq_append_iff.1 hd with ⟨w, hw, _⟩ | ⟨w, hgw, hs₂⟩
    · subst hw
      rw [← List.append_assoc] at hc
      exact Or.inl ((listSub_iff g s₁).2 ⟨x, w, hc⟩)
    · rcases eq_or_ne c [] with rfl | hcne
      · simp only [List.nil_append] at hgw
        subst hgw
        exact Or.inr (Or.inl ((listSub_iff g s₂).2 ⟨[], y, by simpa using hs₂⟩))
      · rcases eq_or_ne w [] with rfl | hwne
        · rw [List.append_nil] at hgw
          subst hgw
          exact Or.inl ((listSub_iff g s₁).2 ⟨x, [], by simpa using hc⟩)
        · exact Or.inr (Or.inr ⟨c, w, hgw, hcne, hwne, ⟨x, hc.symm⟩, ⟨y, hs₂.symm⟩⟩)

theorem head_eq_of_append {α : Type} {g g₁ g₂ : List α}
    (hg : g = g₁ ++ g₂) (h : g₁ ≠ []) : g.head? = g₁.head? := by
  cases g₁ with
  | nil => exact absurd rfl h
  | cons a t => simp [hg]

theorem head_mem_of_ne_nil {α : Type} {l : List α} {a : α}
    (h : l.head? = some a) : a ∈ l := by
  cases l with
  | nil => cases h
  | cons b t =>
    simp only [List.head?_cons, Option.some_inj] at h
    exact h ▸ List.mem_cons_self b t

/-- The central absence lemma: `g` cannot occur in `a ++ (m ++ c)` when it is
longer than `a` and `c`, does not occur in `m`, begins with a character not
occurring in `a`, and `c` begins with a character not occurring in `g`. -/
theorem listSub_three_false {α : Type} [DecidableEq α] {g a m c : List α} {gh ch : α}
    (hga : a.length < g.length) (hgc : c.length < g.length)
    (hm : listSub g m = false)
    (hgh : g.head? = some gh) (hghA : gh ∉ a)
    (hch : c.head? = some ch) (hchG : ch ∉ g) :
    listSub g (a ++ (m ++ c)) = false := by
  rw [Bool.eq_false_iff]
  intro h
  rcases listSub_split h with h1 | h2 | ⟨g₁, g₂, hg, hg₁, _, hsuf, _⟩
  · exact absurd (listSub_length h1) (by omega)
  · rcases listSub_split h2 with h3 | h4 | ⟨g₁, g₂, hg, _, hg₂, _, hpre⟩
    · rw [hm] at h3
      cases h3
    · exact absurd (listSub_length h4) (by omega)
    · obtain ⟨t, rfl⟩ := hpre
      have hhead : g₂.head? = some ch := by
        cases g₂ with
        | nil => exact absurd rfl hg₂
        | cons e es => simpa using hch
      exact hchG (hg ▸ List.mem_append_right g₁ (head_mem_of_ne_nil hhead))
  · have hhead : g₁.head? = some gh := (head_eq_of_append hg hg₁) ▸ hgh
    exact hghA (hsuf.sublist.subset (head_mem_of_ne_nil hhead))

/-- Boolean test that the string `p` occurs contiguously inside `s`. -/
def strSub (p s : String) : Bool := listSub p.data s.data

theorem strSub_middle (x p y : String) : strSub p (x ++ p ++ y) = true := by
  unfold strSub
  rw [String.data_append, String.data_append]
  exact listSub_middle x.data p.data y.data

/-! Modelling of `Array.from(new Set(list))` from `getFullRouteUrl`:
a JavaScript `Set` iterates in insertion order, so the conversion keeps the
first occurrence of each element and drops later duplicates. -/

def dedupFirstAux : List String → List String → List String
  | _, [] => []
  | seen, x :: xs =>
    if x ∈ seen then dedupFirstAux seen xs else x :: dedupFirstAux (x :: seen) xs

/-- Models `Array.from(new Set(l))`: first-seen order, exact-string
duplicates removed. -/
def dedupFirst (l : List String) : List String := dedupFirstAux [] l

theorem mem_dedupFirstAux (seen xs : List String) (y : String) :
    y ∈ dedupFirstAux seen xs ↔ y ∈ xs ∧ y ∉ seen := by
  induction xs generalizing seen with
  | nil => simp [dedupFirstAux]
  | cons x xs ih =>
    by_cases hx : x ∈ seen
    · rw [dedupFirstAux, if_pos hx, ih]
      constructor
      · rintro ⟨h1, h2⟩
        exact ⟨List.mem_cons_of_mem x h1, h2⟩
      · rintro ⟨h1, h2⟩
        rcases List.mem_cons.1 h1 with rfl | h1
        · exact absurd hx h2
        · exact ⟨h1, h2⟩
    · rw [dedupFirstAux, if_neg hx]
      constructor
      · intro hmem
        rcases List.mem_cons.1 hmem with rfl | hmem
        · exact ⟨List.mem_cons_self y xs, hx⟩
        · obtain ⟨h1, h2⟩ := (ih (x :: seen)).1 hmem
          exact ⟨List.mem_cons_of_mem x h1, fun hs => h2 (List.mem_cons_of_mem x hs)⟩
      · rintro ⟨h1, h2⟩
        by_cases hxy : y = x
        · exact hxy ▸ List.mem_cons_self x _
        · have hxs : y ∈ xs := by
            rcases List.mem_cons.1 h1 with h | h
            · exact absurd h hxy
            · exact h
          have hns : y ∉ x :: seen := by
            intro hs
            rcases List.mem_cons.1 hs with h | h
            · exact hxy h
            · exact h2 h
          exact List.mem_cons_of_mem x ((ih (x :: seen)).2 ⟨hxs, hns⟩)

theorem dedupFirstAux_sublist (seen xs : List String) :
    (dedupFirstAux seen xs).Sublist xs := by
  induction xs generalizing seen with
  | nil => simp [dedupFirstAux]
  | cons x xs ih =>
    by_cases hx : x ∈ seen
    · rw [dedupFirstAux, if_pos hx]
      exact (ih seen).cons x
    · rw [dedupFirstAux, if_neg hx]
      exact (ih (x :: seen)).cons₂ x

theorem dedupFirstAux_nodup (seen xs : List String) :
    (dedupFirstAux seen xs).Nodup := by
  induction xs generalizing seen with
  | nil => simp [dedupFirstAux]
  | cons x xs ih =>
    by_cases hx : x ∈ seen
    · rw [dedupFirstAux, if_pos hx]
      exact ih seen
    · rw [dedupFirstAux, if_neg hx]
      refine List.Nodup.cons ?_ (ih (x :: seen))
      intro hmem
      exact ((mem_dedupFirstAux (x :: seen) xs x).1 hmem).2 (List.mem_cons_self x seen)

theorem mem_dedupFirst (l : List String) (y : String) :
    y ∈ dedupFirst l ↔ y ∈ l := by
  rw [dedupFirst, mem_dedupFirstAux]
  simp

theorem dedupFirst_sublist (l : List String) : (dedupFirst l).Sublist l :=
  dedupFirstAux_sublist [] l

theorem dedupFirst_nodup (l : List String) : (dedupFirst l).Nodup :=
  dedupFirstAux_nodup [] l

/-! Modelling of JavaScript `encodeURIComponent`, used by `getFullRouteUrl`
before interpolating place names into maps URLs. -/

def uriHexDigit (n : ℕ) : Char :=
  if n < 10 then Char.ofNat (48 + n) else Char.ofNat (55 + n)

def pctByte (b : ℕ) : String :=
  String.mk ['%', uriHexDigit (b / 16), uriHexDigit (b % 16)]

/-- UTF-8 byte sequence of a unicode scalar value. -/
def utf8Bytes (n : ℕ) : List ℕ :=
  if n < 128 then [n]
  else if n < 2048 then [192 + n / 64, 128 + n % 64]
  else if n < 65536 then [224 + n / 4096, 128 + (n / 64) % 64, 128 + n % 64]
  else [240 + n / 262144, 128 + (n / 4096) % 64, 128 + (n / 64) % 64, 128 + n % 64]

def pctEncodeBytes : List ℕ → String
  | [] => ""
  | b :: bs => pctByte b ++ pctEncodeBytes bs

/-- Characters that `encodeURIComponent` leaves unescaped:
alphanumerics and `- _ . ! ~ * ' ( )`. -/
def uriUnreservedChar (c : Char) : Bool :=
  c.isAlphanum || decide (c ∈ ['-', '_', '.', '!', '~', '*', Char.ofNat 39, '(', ')'])

def encodeChar (c : Char) : String :=
  if uriUnreservedChar c then String.mk [c] else pctEncodeBytes (utf8Bytes c.toNat)

def encodeList : List Char → String
  | [] => ""
  | c :: cs => encodeChar c ++ encodeList cs

/-- Models JavaScript `encodeURIComponent`. -/
def encodeURIComponent (s : String) : String := encodeList s.data

theorem encodeChar_length_pos (c : Char) : 0 < (encodeChar c).length := by
  rw [encodeChar]
  by_cases h : uriUnreservedChar c = true
  · rw [if_pos h]
    exact Nat.zero_lt_one
  · rw [if_neg h, utf8Bytes]
    by_cases h1 : c.toNat < 128
    · rw [if_pos h1]
      simp [pctEncodeBytes, pctByte, String.length_append]
    · rw [if_neg h1]
      by_cases h2 : c.toNat < 2048
      · rw [if_pos h2]
        simp [pctEncodeBytes, pctByte, String.length_append]
      · rw [if_neg h2]
        by_cases h3 : c.toNat < 65536
        · rw [if_pos h3]
          simp [pctEncodeBytes, pctByte, String.length_append]
        · rw [if_neg h3]
          simp [pctEncodeBytes, pctByte, String.length_append]

theorem encodeURIComponent_ne_empty {s : String} (h : s ≠ "") :
    encodeURIComponent s ≠ "" := by
  have hd : s.data ≠ [] := fun hnil => h (String.ext hnil)
  cases hs : s.data with
  | nil => exact absurd hs hd
  | cons c cs =>
    rw [encodeURIComponent, hs, encodeList]
    intro hempty
    have hlen := congrArg String.length hempty
    rw [String.length_append] at hlen
    have hpos := encodeChar_length_pos c
    have hz : String.length "" = 0 := rfl
    rw [hz] at hlen
    omega

/-! Data model for grounded responses: `generateWalkingTour` (part_001 and
part_002) returns `{ text, groundingChunks }`, and each grounding chunk may
carry a `maps` object with `title` and `uri`.  Absent JavaScript properties
are modelled as `Option.none`. -/

structure MapsRef where
  title : Option String
  uri : Option String
  deriving Repr, DecidableEq

structure GroundingChunk where
  maps : Option MapsRef
  deriving Repr, DecidableEq

structure GroundedItinerary where
  text : String
  groundingChunks : List GroundingChunk
  deriving Repr, DecidableEq

/-- Truthiness test `chunk.maps && chunk.maps.title` from `getFullRouteUrl`
(an absent or empty-string title is falsy). -/
def chunkHasTitle (c : GroundingChunk) : Bool :=
  match c.maps with
  | some m =>
    match m.title with
    | some t => if t = "" then false else true
    | none => false
  | none => false

/-- Extraction `chunk.maps.title` performed by the `.map` call after the
truthiness filter (the default value is never reached on filtered chunks). -/
def chunkTitle (c : GroundingChunk) : String :=
  match c.maps with
  | some m => m.title.getD ""
  | none => ""

/-- Models `Array.prototype.join('|')` on the way points list. -/
def pipeJoin : List String → String
  | [] => ""
  | [x] => x
  | x :: y :: xs => x ++ "|" ++ pipeJoin (y :: xs)

/-- The unique place-title list computed at the start of `getFullRouteUrl`:
filter chunks with a truthy `maps.title`, map to the title, then dedupe via
`Array.from(new Set(...))`. -/
def extractPlaces (chunks : List GroundingChunk) : List String :=
  dedupFirst ((chunks.filter chunkHasTitle).map chunkTitle)

/-- Embedding of `getFullRouteUrl` from the presentation layer (part_000).
The guard `!itinerary` is modelled by the `Option` input; `groundingChunks`
is always an array (hence truthy) in the model, matching the value produced
by `generateWalkingTour`.  `places.slice(1, -1)` is `drop 1` followed by
`dropLast`, and `${waypoints ? ... : ''}` tests string truthiness. -/
def getFullRouteUrl (itinerary : Option GroundedItinerary) : Option String :=
  match itinerary with
  | none => none
  | some it =>
    let places := extractPlaces it.groundingChunks
    if places.length < 2 then
      if places.length = 1 then
        some ("https://www.google.com/maps/search/?api=1&query=" ++
          encodeURIComponent (places.getD 0 ""))
      else
        none
    else
      let origin := encodeURIComponent (places.getD 0 "")
      let destination := encodeURIComponent (places.getD (places.length - 1) "")
      let waypoints :=
        if 2 < places.length then
          pipeJoin (((places.drop 1).dropLast).map encodeURIComponent)
        else ""
      some ("https://www.google.com/maps/dir/?api=1&origin=" ++ origin ++
        "&destination=" ++ destination ++
        (if waypoints ≠ "" then "&waypoints=" ++ waypoints else "") ++
        "&travelmode=walking")

theorem chunkTitle_ne_empty {c : GroundingChunk} (h : chunkHasTitle c = true) :
    chunkTitle c ≠ "" := by
  rcases c with ⟨maps⟩
  cases maps with
  | none => cases h
  | some m =>
    rcases m with ⟨title, uri⟩
    cases title with
    | none => cases h
    | some t =>
      by_cases ht : t = ""
      · rw [chunkHasTitle] at h
        simp [ht] at h
      · simpa [chunkTitle] using ht

theorem mem_extractPlaces_ne_empty {chunks : List GroundingChunk} {y : String}
    (h : y ∈ extractPlaces chunks) : y ≠ "" := by
  rw [extractPlaces, mem_dedupFirst] at h
  obtain ⟨c, hc, rfl⟩ := List.mem_map.1 h
  exact chunkTitle_ne_empty (List.mem_filter.1 hc).2

theorem pipeJoin_cons_ne_empty (x : String) (xs : List String) (hx : x ≠ "") :
    pipeJoin (x :: xs) ≠ "" := by
  cases xs with
  | nil => simpa [pipeJoin] using hx
  | cons y ys =>
    rw [pipeJoin]
    intro hempty
    have hlen := congrArg String.length hempty
    rw [String.length_append, String.length_append] at hlen
    have h1 : String.length "|" = 1 := rfl
    have hz : String.length "" = 0 := rfl
    rw [h1, hz] at hlen
    omega

theorem getD_append_last (q : String) (mid : List String) :
    (mid ++ [q]).getD mid.length "" = q := by
  induction mid with
  | nil => rfl
  | cons z zs ih => simp [List.getD_cons_succ, ih]

/-- C1: for every grounded itinerary, route URL derivation extracts place
titles from the attached place references in first-seen order with
exact-string duplicates removed (the unique list is duplicate-free, an
order-preserving subsequence of the extracted titles, and has exactly their
members); an empty unique list yields no route URL; a one-element list
yields the single-point map search URL containing that place; `n ≥ 2`
unique places yield a walking-mode directions URL whose origin is the first
unique place, whose destination is the last, and whose interior places
appear in order as pipe-delimited waypoints, with no waypoints parameter
when `n = 2`. -/
theorem getFullRouteUrl_spec (it : GroundedItinerary) :
    (extractPlaces it.groundingChunks).Nodup ∧
    (extractPlaces it.groundingChunks).Sublist
      ((it.groundingChunks.filter chunkHasTitle).map chunkTitle) ∧
    (∀ t, t ∈ extractPlaces it.groundingChunks ↔
        t ∈ (it.groundingChunks.filter chunkHasTitle).map chunkTitle) ∧
    (extractPlaces it.groundingChunks = [] → getFullRouteUrl (some it) = none) ∧
    (∀ p, extractPlaces it.groundingChunks = [p] →
        getFullRouteUrl (some it) =
          some ("https://www.google.com/maps/search/?api=1&query=" ++
            encodeURIComponent p)) ∧
    (∀ p mid q, extractPlaces it.groundingChunks = p :: (mid ++ [q]) →
        getFullRouteUrl (some it) =
          some ("https://www.google.com/maps/dir/?api=1&origin=" ++
            encodeURIComponent p ++ "&destination=" ++ encodeURIComponent q ++
            (if mid = [] then ""
              else "&waypoints=" ++ pipeJoin (mid.map encodeURIComponent)) ++
            "&travelmode=walking")) := by
  refine ⟨dedupFirst_nodup _, dedupFirst_sublist _,
    fun t => mem_dedupFirst _ t, ?_, ?_, ?_⟩
  · intro h
    simp only [getFullRouteUrl]
    rw [h]
    simp
  · intro p h
    simp only [getFullRouteUrl]
    rw [h]
    simp [List.getD_cons_zero]
  · intro p mid q h
    simp only [getFullRouteUrl]
    rw [h]
    have hlen : (p :: (mid ++ [q])).length = mid.length + 2 := by
      simp
    rw [hlen]
    rw [if_neg (by omega)]
    have hidx : mid.length + 2 - 1 = mid.length + 1 := by omega
    rw [hidx]
    have hdest : (p :: (mid ++ [q])).getD (mid.length + 1) "" = q := by
      have hstep : (p :: (mid ++ [q])).getD (mid.length + 1) "" =
          (mid ++ [q]).getD mid.length "" := rfl
      rw [hstep, getD_append_last]
    have horig : (p :: (mid ++ [q])).getD 0 "" = p := rfl
    rw [hdest, horig]
    have hdrop : ((p :: (mid ++ [q])).drop 1).dropLast = mid := by
      simp
    rw [hdrop]
    rcases mid with _ | ⟨z, zs⟩
    · rw [if_neg (by simp)]
      simp [String.append_assoc]
    · have hzmem : z ∈ extractPlaces it.groundingChunks := by
        rw [h]
        exact List.mem_cons_of_mem p (List.mem_append_left [q]
          (List.mem_cons_self z zs))
      have hz : encodeURIComponent z ≠ "" :=
        encodeURIComponent_ne_empty (mem_extractPlaces_ne_empty hzmem)
      have hjoin : pipeJoin (List.map encodeURIComponent (z :: zs)) ≠ "" := by
        rw [List.map_cons]
        exact pipeJoin_cons_ne_empty _ _ hz
      rw [if_pos (show 2 < (z :: zs).length + 2 by simp)]
      rw [if_pos hjoin, if_neg (List.cons_ne_nil z zs)]

/-- Concrete grounding chunk with the given title, used for witnesses. -/
def chunkNamed (t : String) : GroundingChunk :=
  ⟨some ⟨some t, some ("https://maps.example/" ++ t)⟩⟩

/-- Concrete grounded itinerary whose chunk titles are A, B, C, B
(the duplicate-containing example from the specification). -/
def itABCB : GroundedItinerary :=
  ⟨"itinerary text", [chunkNamed "A", chunkNamed "B", chunkNamed "C", chunkNamed "B"]⟩

/-- Witness for `getFullRouteUrl_spec`: on titles A, B, C, B the unique list
is A, B, C and the derived URL has origin A, destination C, waypoints B. -/
theorem getFullRouteUrl_spec_witness :
    extractPlaces itABCB.groundingChunks = "A" :: (["B"] ++ ["C"]) ∧
    getFullRouteUrl (some itABCB) =
      some "https://www.google.com/maps/dir/?api=1&origin=A&destination=C&waypoints=B&travelmode=walking" := by
  have hp : extractPlaces itABCB.groundingChunks = "A" :: (["B"] ++ ["C"]) := by
    decide
  refine ⟨hp, ?_⟩
  have h := (getFullRouteUrl_spec itABCB).2.2.2.2.2 "A" ["B"] "C" hp
  rw [h]
  rfl

/-! Request data model (part_001/part_002 `TourRequest`) and the supported
category and duration constants from the presentation layer (part_000):
`CATEGORIES` ids and `DURATIONS`. -/

structure LatLng where
  latitude : ℚ
  longitude : ℚ
  deriving Repr, DecidableEq

structure TourRequest where
  category : String
  location : String
  duration : ℕ
  latLng : Option LatLng
  deriving Repr, DecidableEq

def supportedCategories : List String :=
  ["Food tour", "Nature walk", "Points of interest", "Historical"]

def durationPresets : List ℕ := [30, 60, 90, 120]

/-! Prompt templates, byte-for-byte from the three template literals in the
source (server.ts and the two `generateWalkingTour` variants).  The template
literals preserve the source indentation, including the trailing space after
`"${location}". ` and the indented blank lines. -/

def serverPromptPre : String :=
  "Create a detailed walking tour itinerary for a \""

def serverPromptMid1 : String := "\" tour starting from \""

def serverPromptMid2 : String :=
  "\". \n    The total duration should be approximately "

def serverPromptTail : String :=
  " minutes.\n    \n    Use real, existing places. Ensure coordinates are accurate for the specified location."

/-- Prompt built inline in the `/api/generate-tour` handler (server.ts). -/
def buildServerPrompt (category location : String) (duration : ℕ) : String :=
  serverPromptPre ++ category ++ serverPromptMid1 ++ location ++
    serverPromptMid2 ++ toString duration ++ serverPromptTail

def groundedPromptPre : String :=
  "Create a sequential walking tour itinerary for a \""

def groundedPromptMid1 : String := "\" tour starting from \""

def groundedPromptMid2 : String :=
  "\". \n  The total duration should be approximately "

def groundedDurTail : String := " minutes."

/-- Indentation that precedes `${categorySpecificInstructions}` on its own
line in part_002's template literal. -/
def groundedInstrLine : String := "\n  "

def groundedPromptTail : String :=
  "\n  \n  For each of the 3-5 main stops in the tour, you MUST:\n  1. Use the Google Maps tool to find the specific location.\n  2. List the stop with its official name, a brief description, estimated time, and walking directions.\n  \n  CRITICAL: Only use the Google Maps tool for the main stops of the tour. Do not ground the starting location if it\x27s a general area, and do not ground other places mentioned in the descriptions.\n  \n  The output should be a clear, step-by-step itinerary."

/-- Category-specific guidance text from part_002 (the food tour
instructions template literal, which begins with a newline and four spaces
of indentation). -/
def foodGuidance : String :=
  "\n    Provide a food tour that includes destinations within a walkable distance from the start point. Select destinations that are unique to the area, such as food stops with historical significance, menu items that include dishes or ingredients unique to the local area or region, or are otherwise highly unique and can only be found in the local area. These destinations should be high quality with a Google maps rating of at least 4 stars. And you should be able to visit each destination and partake in the suggested dish within the requested time.\n\n    For each destination, suggest a menu item that is a must try and describe why it is highly recommended. Be fun, interesting, and detailed in your description."

/-- The `categorySpecificInstructions` variable of part_002: the food
guidance for the `"Food tour"` category, the empty string otherwise. -/
def categorySpecificInstructions (category : String) : String :=
  if category = "Food tour" then foodGuidance else ""

/-- Prompt of part_001's `generateWalkingTour` (grounded variant without
category-specific instructions). -/
def buildGroundedPromptV1 (category location : String) (duration : ℕ) : String :=
  groundedPromptPre ++ category ++ groundedPromptMid1 ++ location ++
    groundedPromptMid2 ++ toString duration ++ groundedDurTail ++
    groundedPromptTail

/-- Prompt of part_002's `generateWalkingTour` (grounded variant with
category-specific instructions interpolated on their own line after the
duration sentence). -/
def buildGroundedPromptV2 (category location : String) (duration : ℕ) : String :=
  groundedPromptPre ++ category ++ groundedPromptMid1 ++ location ++
    groundedPromptMid2 ++ toString duration ++ groundedDurTail ++
    groundedInstrLine ++ categorySpecificInstructions category ++
    groundedPromptTail

/-! Model-call configuration of the grounded variants: both pass the same
model name, the `googleMaps` tool, and the request's coordinate bias. -/

structure GroundedModelCall where
  model : String
  contents : String
  usesGoogleMapsTool : Bool
  retrievalLatLng : Option LatLng
  deriving Repr, DecidableEq

def buildCallV1 (req : TourRequest) : GroundedModelCall :=
  { model := "gemini-2.5-flash"
    contents := buildGroundedPromptV1 req.category req.location req.duration
    usesGoogleMapsTool := true
    retrievalLatLng := req.latLng }

def buildCallV2 (req : TourRequest) : GroundedModelCall :=
  { model := "gemini-2.5-flash"
    contents := buildGroundedPromptV2 req.category req.location req.duration
    usesGoogleMapsTool := true
    retrievalLatLng := req.latLng }

/-! Response plumbing of the grounded variants. -/

structure GroundingMeta where
  groundingChunks : Option (List GroundingChunk)
  deriving Repr, DecidableEq

structure GenaiCandidate where
  groundingMetadata : Option GroundingMeta
  deriving Repr, DecidableEq

structure GenaiResponse where
  text : Option String
  candidates : Option (List GenaiCandidate)
  deriving Repr, DecidableEq

/-- JavaScript `x || d` for an optional string `x`: both `undefined` and the
empty string are falsy. -/
def jsOrString : Option String → String → String
  | none, d => d
  | some s, d => if s = "" then d else s

/-- Shared result shaping of both grounded variants: default the text to the
apology sentence, default the chunk list to `[]`
(`response.candidates?.[0]?.groundingMetadata?.groundingChunks || []`). -/
def shapeGroundedResult (r : GenaiResponse) : GroundedItinerary :=
  { text := jsOrString r.text "Sorry, I couldn\x27t generate a tour at this time."
    groundingChunks :=
      ((((r.candidates.bind List.head?).bind
        GenaiCandidate.groundingMetadata).bind
        GroundingMeta.groundingChunks).getD []) }

/-- Embedding of part_001's `generateWalkingTour`.  The module-level client
is `new GoogleGenAI({ apiKey: process.env.GEMINI_API_KEY })`: the repository
code performs no missing/placeholder validation of the credential, so the
outbound `generateContent` call is attempted unconditionally; the returned
Boolean records that the call was attempted, and `modelOutcome` stands for
the awaited result of that call. -/
def generateWalkingTourV1 (_envGeminiKey : Option String) (req : TourRequest)
    (modelOutcome : Except String GenaiResponse) :
    GroundedModelCall × Bool × Except String GroundedItinerary :=
  (buildCallV1 req, true,
    match modelOutcome with
    | .error e => .error e
    | .ok r => .ok (shapeGroundedResult r))

/-- Embedding of part_002's `generateWalkingTour`; identical to part_001's
except for the prompt (see `buildGroundedPromptV2`).  As in part_001, the
repository code never checks the credential before calling the model. -/
def generateWalkingTourV2 (_envGeminiKey : Option String) (req : TourRequest)
    (modelOutcome : Except String GenaiResponse) :
    GroundedModelCall × Bool × Except String GroundedItinerary :=
  (buildCallV2 req, true,
    match modelOutcome with
    | .error e => .error e
    | .ok r => .ok (shapeGroundedResult r))

/-! Substring helper lemmas used by the prompt-content theorems. -/

theorem strSub_of_eq (x p y s : String) (h : s = x ++ p ++ y) :
    strSub p s = true := by
  rw [h]
  exact strSub_middle x p y

theorem not_mem_append3 {α : Type} {x : α} {l₁ l₂ l₃ : List α}
    (h1 : x ∉ l₁) (h2 : x ∉ l₂) (h3 : x ∉ l₃) : x ∉ l₁ ++ l₂ ++ l₃ := by
  intro h
  rcases List.mem_append.1 h with h | h
  · rcases List.mem_append.1 h with h | h
    · exact h1 h
    · exact h2 h
  · exact h3 h

theorem head_append_of_head {l₁ l₂ : List Char} {ch : Char}
    (h : l₁.head? = some ch) : (l₁ ++ l₂).head? = some ch := by
  cases l₁ with
  | nil => cases h
  | cons a t => simpa using h

theorem emptyString_data : ("" : String).data = [] := rfl

/-- Specialization of `listSub_three_false` to the food guidance text: the
guidance begins with a newline, contains no double quote, and is 715
characters long. -/
theorem foodGuidance_absent {a c : List Char} {loc : String}
    (hga : a.length < 715) (hgc : c.length < 715)
    (hloc : strSub foodGuidance loc = false)
    (hghA : ('\n' : Char) ∉ a)
    (hch : c.head? = some ('"' : Char)) :
    listSub foodGuidance.data (a ++ (loc.data ++ c)) = false := by
  have hglen : foodGuidance.data.length = 715 := by decide
  exact listSub_three_false (by omega) (by omega) hloc (by decide) hghA hch
    (by decide)

/-- For any category without a newline (of bounded length), any location not
containing the guidance, and any duration with at most three digits, the
structured-mode server prompt does not contain the food guidance. -/
theorem serverPrompt_guidance_absent (cat loc : String) (d : ℕ)
    (hcl : cat.data.length ≤ 18) (hcn : ('\n' : Char) ∉ cat.data)
    (hdl : (toString d).data.length ≤ 3)
    (hloc : strSub foodGuidance loc = false) :
    strSub foodGuidance (buildServerPrompt cat loc d) = false := by
  have hshape : (buildServerPrompt cat loc d).data =
      (serverPromptPre.data ++ cat.data ++ serverPromptMid1.data) ++
        (loc.data ++ (serverPromptMid2.data ++
          ((toString d).data ++ serverPromptTail.data))) := by
    simp [buildServerPrompt, String.data_append, List.append_assoc]
  show listSub foodGuidance.data (buildServerPrompt cat loc d).data = false
  rw [hshape]
  refine foodGuidance_absent ?_ ?_ hloc ?_ ?_
  · have h1 : serverPromptPre.data.length = 48 := by decide
    have h2 : serverPromptMid1.data.length = 22 := by decide
    simp only [List.length_append]
    omega
  · have h1 : serverPromptMid2.data.length = 51 := by decide
    have h2 : serverPromptTail.data.length = 105 := by decide
    simp only [List.length_append]
    omega
  · exact not_mem_append3 (by decide) hcn (by decide)
  · exact head_append_of_head (by decide)

/-- Analogue of `serverPrompt_guidance_absent` for part_001's grounded
prompt, which never interpolates category instructions. -/
theorem groundedV1_guidance_absent (cat loc : String) (d : ℕ)
    (hcl : cat.data.length ≤ 18) (hcn : ('\n' : Char) ∉ cat.data)
    (hdl : (toString d).data.length ≤ 3)
    (hloc : strSub foodGuidance loc = false) :
    strSub foodGuidance (buildGroundedPromptV1 cat loc d) = false := by
  have hshape : (buildGroundedPromptV1 cat loc d).data =
      (groundedPromptPre.data ++ cat.data ++ groundedPromptMid1.data) ++
        (loc.data ++ (groundedPromptMid2.data ++
          ((toString d).data ++ (groundedDurTail.data ++
            groundedPromptTail.data)))) := by
    simp [buildGroundedPromptV1, String.data_append, List.append_assoc]
  show listSub foodGuidance.data (buildGroundedPromptV1 cat loc d).data = false
  rw [hshape]
  refine foodGuidance_absent ?_ ?_ hloc ?_ ?_
  · have h1 : groundedPromptPre.data.length = 50 := by decide
    have h2 : groundedPromptMid1.data.length = 22 := by decide
    simp only [List.length_append]
    omega
  · have h1 : groundedPromptMid2.data.length = 49 := by decide
    have h2 : groundedDurTail.data.length = 9 := by decide
    have h3 : groundedPromptTail.data.length = 482 := by decide
    simp only [List.length_append]
    omega
  · exact not_mem_append3 (by decide) hcn (by decide)
  · exact head_append_of_head (by decide)

/-- Analogue for part_002's grounded prompt on a non-food category: the
interpolated instructions are empty, and the guidance does not occur. -/
theorem groundedV2_guidance_absent (cat loc : String) (d : ℕ)
    (hne : cat ≠ "Food tour")
    (hcl : cat.data.length ≤ 18) (hcn : ('\n' : Char) ∉ cat.data)
    (hdl : (toString d).data.length ≤ 3)
    (hloc : strSub foodGuidance loc = false) :
    strSub foodGuidance (buildGroundedPromptV2 cat loc d) = false := by
  have hshape : (buildGroundedPromptV2 cat loc d).data =
      (groundedPromptPre.data ++ cat.data ++ groundedPromptMid1.data) ++
        (loc.data ++ (groundedPromptMid2.data ++
          ((toString d).data ++ (groundedDurTail.data ++
            (groundedInstrLine.data ++ groundedPromptTail.data))))) := by
    simp [buildGroundedPromptV2, categorySpecificInstructions, hne,
      emptyString_data, String.data_append, List.append_assoc]
  show listSub foodGuidance.data (buildGroundedPromptV2 cat loc d).data = false
  rw [hshape]
  refine foodGuidance_absent ?_ ?_ hloc ?_ ?_
  · have h1 : groundedPromptPre.data.length = 50 := by decide
    have h2 : groundedPromptMid1.data.length = 22 := by decide
    simp only [List.length_append]
    omega
  · have h1 : groundedPromptMid2.data.length = 49 := by decide
    have h2 : groundedDurTail.data.length = 9 := by decide
    have h3 : groundedInstrLine.data.length = 3 := by decide
    have h4 : groundedPromptTail.data.length = 482 := by decide
    simp only [List.length_append]
    omega
  · exact not_mem_append3 (by decide) hcn (by decide)
  · exact head_append_of_head (by decide)

/-- C2 counterexample: for a Food tour request, neither the structured-mode
server prompt nor part_001's grounded prompt contains the category-specific
guidance text, refuting the claim that the guidance is present for the
food-focused category in every mode in which a prompt is built. -/
theorem foodGuidance_missing_from_other_modes :
    strSub foodGuidance (buildServerPrompt "Food tour" "Paris" 60) = false ∧
    strSub foodGuidance (buildGroundedPromptV1 "Food tour" "Paris" 60) = false := by
  constructor
  · exact serverPrompt_guidance_absent "Food tour" "Paris" 60 (by decide)
      (by decide) (by decide) (by decide)
  · exact groundedV1_guidance_absent "Food tour" "Paris" 60 (by decide)
      (by decide) (by decide) (by decide)

/-- C2 corrected: for every supported category, preset duration, and
location not itself containing the guidance text, the part_002 grounded
prompt contains the category-specific guidance text if and only if the
category is the recognized specialty `"Food tour"`; the part_001 grounded
prompt and the structured-mode server prompt never contain it. -/
theorem categoryGuidance_amended (cat loc : String) (d : ℕ)
    (hcat : cat ∈ supportedCategories) (hd : d ∈ durationPresets)
    (hloc : strSub foodGuidance loc = false) :
    (strSub foodGuidance (buildGroundedPromptV2 cat loc d) = true ↔
      cat = "Food tour") ∧
    strSub foodGuidance (buildGroundedPromptV1 cat loc d) = false ∧
    strSub foodGuidance (buildServerPrompt cat loc d) = false := by
  have hcatcases : cat = "Food tour" ∨ cat = "Nature walk" ∨
      cat = "Points of interest" ∨ cat = "Historical" := by
    simpa [supportedCategories] using hcat
  have hcl : cat.data.length ≤ 18 := by
    rcases hcatcases with rfl | rfl | rfl | rfl <;> decide
  have hcn : ('\n' : Char) ∉ cat.data := by
    rcases hcatcases with rfl | rfl | rfl | rfl <;> decide
  have hdcases : d = 30 ∨ d = 60 ∨ d = 90 ∨ d = 120 := by
    simpa [durationPresets] using hd
  have hdl : (toString d).data.length ≤ 3 := by
    rcases hdcases with rfl | rfl | rfl | rfl <;> decide
  refine ⟨⟨?_, ?_⟩, groundedV1_guidance_absent cat loc d hcl hcn hdl hloc,
    serverPrompt_guidance_absent cat loc d hcl hcn hdl hloc⟩
  · intro hsub
    by_contra hne
    have habs := groundedV2_guidance_absent cat loc d hne hcl hcn hdl hloc
    rw [habs] at hsub
    exact Bool.false_ne_true hsub
  · rintro rfl
    exact strSub_of_eq
      (groundedPromptPre ++ "Food tour" ++ groundedPromptMid1 ++ loc ++
        groundedPromptMid2 ++ toString d ++ groundedDurTail ++
        groundedInstrLine)
      foodGuidance groundedPromptTail _
      (by simp [buildGroundedPromptV2, categorySpecificInstructions,
        String.append_assoc])

/-- Witness for `categoryGuidance_amended` at the concrete request
(Food tour, Paris, 60 minutes). -/
theorem categoryGuidance_amended_witness :
    "Food tour" ∈ supportedCategories ∧ 60 ∈ durationPresets ∧
    strSub foodGuidance "Paris" = false ∧
    ((strSub foodGuidance (buildGroundedPromptV2 "Food tour" "Paris" 60) = true ↔
        "Food tour" = "Food tour") ∧
      strSub foodGuidance (buildGroundedPromptV1 "Food tour" "Paris" 60) = false ∧
      strSub foodGuidance (buildServerPrompt "Food tour" "Paris" 60) = false) :=
  ⟨by decide, by decide, by decide,
    categoryGuidance_amended "Food tour" "Paris" 60 (by decide) (by decide)
      (by decide)⟩

/-- C6: for every valid TourRequest (supported category, non-empty location,
positive preset duration), the prompt produced by each of the three request
builders contains the category string, the location string, and the decimal
rendering of the duration, each verbatim as a substring. -/
theorem prompt_contains_fields (cat loc : String) (d : ℕ)
    (hcat : cat ∈ supportedCategories) (hloc : loc ≠ "")
    (hd : d ∈ durationPresets) :
    (strSub cat (buildServerPrompt cat loc d) = true ∧
      strSub loc (buildServerPrompt cat loc d) = true ∧
      strSub (toString d) (buildServerPrompt cat loc d) = true) ∧
    (strSub cat (buildGroundedPromptV1 cat loc d) = true ∧
      strSub loc (buildGroundedPromptV1 cat loc d) = true ∧
      strSub (toString d) (buildGroundedPromptV1 cat loc d) = true) ∧
    (strSub cat (buildGroundedPromptV2 cat loc d) = true ∧
      strSub loc (buildGroundedPromptV2 cat loc d) = true ∧
      strSub (toString d) (buildGroundedPromptV2 cat loc d) = true) := by
  refine ⟨⟨?_, ?_, ?_⟩, ⟨?_, ?_, ?_⟩, ⟨?_, ?_, ?_⟩⟩
  · exact strSub_of_eq serverPromptPre cat
      (serverPromptMid1 ++ loc ++ serverPromptMid2 ++ toString d ++
        serverPromptTail) _
      (by simp [buildServerPrompt, String.append_assoc])
  · exact strSub_of_eq (serverPromptPre ++ cat ++ serverPromptMid1) loc
      (serverPromptMid2 ++ toString d ++ serverPromptTail) _
      (by simp [buildServerPrompt, String.append_assoc])
  · exact strSub_of_eq
      (serverPromptPre ++ cat ++ serverPromptMid1 ++ loc ++ serverPromptMid2)
      (toString d) serverPromptTail _
      (by simp [buildServerPrompt, String.append_assoc])
  · exact strSub_of_eq groundedPromptPre cat
      (groundedPromptMid1 ++ loc ++ groundedPromptMid2 ++ toString d ++
        groundedDurTail ++ groundedPromptTail) _
      (by simp [buildGroundedPromptV1, String.append_assoc])
  · exact strSub_of_eq (groundedPromptPre ++ cat ++ groundedPromptMid1) loc
      (groundedPromptMid2 ++ toString d ++ groundedDurTail ++
        groundedPromptTail) _
      (by simp [buildGroundedPromptV1, String.append_assoc])
  · exact strSub_of_eq
      (groundedPromptPre ++ cat ++ groundedPromptMid1 ++ loc ++
        groundedPromptMid2) (toString d)
      (groundedDurTail ++ groundedPromptTail) _
      (by simp [buildGroundedPromptV1, String.append_assoc])
  · exact strSub_of_eq groundedPromptPre cat
      (groundedPromptMid1 ++ loc ++ groundedPromptMid2 ++ toString d ++
        groundedDurTail ++ groundedInstrLine ++
        categorySpecificInstructions cat ++ groundedPromptTail) _
      (by simp [buildGroundedPromptV2, String.append_assoc])
  · exact strSub_of_eq (groundedPromptPre ++ cat ++ groundedPromptMid1) loc
      (groundedPromptMid2 ++ toString d ++ groundedDurTail ++
        groundedInstrLine ++ categorySpecificInstructions cat ++
        groundedPromptTail) _
      (by simp [buildGroundedPromptV2, String.append_assoc])
  · exact strSub_of_eq
      (groundedPromptPre ++ cat ++ groundedPromptMid1 ++ loc ++
        groundedPromptMid2) (toString d)
      (groundedDurTail ++ groundedInstrLine ++
        categorySpecificInstructions cat ++ groundedPromptTail) _
      (by simp [buildGroundedPromptV2, String.append_assoc])

/-- Witness for `prompt_contains_fields` at (Nature walk, Paris, 90). -/
theorem prompt_contains_fields_witness :
    "Nature walk" ∈ supportedCategories ∧ ("Paris" : String) ≠ "" ∧
    90 ∈ durationPresets ∧
    ((strSub "Nature walk" (buildServerPrompt "Nature walk" "Paris" 90) = true ∧
        strSub "Paris" (buildServerPrompt "Nature walk" "Paris" 90) = true ∧
        strSub (toString 90) (buildServerPrompt "Nature walk" "Paris" 90) = true) ∧
      (strSub "Nature walk" (buildGroundedPromptV1 "Nature walk" "Paris" 90) = true ∧
        strSub "Paris" (buildGroundedPromptV1 "Nature walk" "Paris" 90) = true ∧
        strSub (toString 90) (buildGroundedPromptV1 "Nature walk" "Paris" 90) = true) ∧
      (strSub "Nature walk" (buildGroundedPromptV2 "Nature walk" "Paris" 90) = true ∧
        strSub "Paris" (buildGroundedPromptV2 "Nature walk" "Paris" 90) = true ∧
        strSub (toString 90) (buildGroundedPromptV2 "Nature walk" "Paris" 90) = true)) :=
  ⟨by decide, by decide, by decide,
    prompt_contains_fields "Nature walk" "Paris" 90 (by decide) (by decide)
      (by decide)⟩

/-- C10 counterexample: on a non-food request the two grounded variants
build different prompt strings (part_002 interpolates an extra whitespace
line where the empty category instructions sit), refuting
character-for-character identity of the prompts. -/
theorem groundedVariants_prompts_differ :
    buildGroundedPromptV1 "Nature walk" "Paris" 60 ≠
      buildGroundedPromptV2 "Nature walk" "Paris" 60 := by
  decide

/-- C10 corrected: for every request whose category is not `"Food tour"`,
the two grounded variants use identical model names, tool configurations,
and coordinate biases, and their prompts are identical except that
part_002's contains one extra whitespace line (newline plus two spaces,
the interpolation site of the empty category instructions) before the
shared tail. -/
theorem groundedVariants_amended (req : TourRequest)
    (h : req.category ≠ "Food tour") :
    (buildCallV1 req).model = (buildCallV2 req).model ∧
    (buildCallV1 req).usesGoogleMapsTool = (buildCallV2 req).usesGoogleMapsTool ∧
    (buildCallV1 req).retrievalLatLng = (buildCallV2 req).retrievalLatLng ∧
    ∃ pre, (buildCallV1 req).contents = pre ++ groundedPromptTail ∧
      (buildCallV2 req).contents = pre ++ "\n  " ++ groundedPromptTail := by
  refine ⟨rfl, rfl, rfl,
    ⟨groundedPromptPre ++ req.category ++ groundedPromptMid1 ++ req.location ++
      groundedPromptMid2 ++ toString req.duration ++ groundedDurTail, ?_, ?_⟩⟩
  · rfl
  · show buildGroundedPromptV2 req.category req.location req.duration = _
    rw [buildGroundedPromptV2, categorySpecificInstructions, if_neg h]
    simp [groundedInstrLine, String.append_assoc]

/-- Witness for `groundedVariants_amended` at a concrete Nature walk
request. -/
theorem groundedVariants_amended_witness :
    (TourRequest.mk "Nature walk" "Paris" 60 none).category ≠ "Food tour" ∧
    ((buildCallV1 (TourRequest.mk "Nature walk" "Paris" 60 none)).model =
        (buildCallV2 (TourRequest.mk "Nature walk" "Paris" 60 none)).model ∧
      (buildCallV1 (TourRequest.mk "Nature walk" "Paris" 60 none)).usesGoogleMapsTool =
        (buildCallV2 (TourRequest.mk "Nature walk" "Paris" 60 none)).usesGoogleMapsTool ∧
      (buildCallV1 (TourRequest.mk "Nature walk" "Paris" 60 none)).retrievalLatLng =
        (buildCallV2 (TourRequest.mk "Nature walk" "Paris" 60 none)).retrievalLatLng ∧
      ∃ pre, (buildCallV1 (TourRequest.mk "Nature walk" "Paris" 60 none)).contents =
          pre ++ groundedPromptTail ∧
        (buildCallV2 (TourRequest.mk "Nature walk" "Paris" 60 none)).contents =
          pre ++ "\n  " ++ groundedPromptTail) :=
  ⟨by decide, groundedVariants_amended (TourRequest.mk "Nature walk" "Paris" 60 none)
    (by decide)⟩

/-! JSON value model for the structured-mode server pipeline.  JSON numbers
are modelled as rationals (JSON literals are finite decimals; no claim
depends on floating-point rounding), JavaScript `undefined` as an absent
field, and objects as ordered field lists. -/

inductive Json where
  | null : Json
  | bool : Bool → Json
  | num : ℚ → Json
  | str : String → Json
  | arr : List Json → Json
  | obj : List (String × Json) → Json

def lookupField : List (String × Json) → String → Option Json
  | [], _ => none
  | (k, v) :: fs, key => if k = key then some v else lookupField fs key

/-- JavaScript property read `o[key]` (undefined on non-objects and missing
keys). -/
def Json.getField : Json → String → Option Json
  | .obj fs, key => lookupField fs key
  | _, _ => none

/-- JavaScript truthiness of a JSON value (objects and arrays are always
truthy; `0`, `""`, `false` and `null` are falsy). -/
def Json.truthy : Json → Bool
  | .null => false
  | .bool b => b
  | .num q => if q = 0 then false else true
  | .str s => if s = "" then false else true
  | .arr _ => true
  | .obj _ => true

/-- Truthiness of a possibly-absent value (`undefined` is falsy). -/
def truthyOpt : Option Json → Bool
  | none => false
  | some j => j.truthy

/-- JavaScript property assignment `o[key] = v` on a plain object: updates
the existing entry in place or appends a new one. -/
def setField : List (String × Json) → String → Json → List (String × Json)
  | [], key, v => [(key, v)]
  | (k, w) :: fs, key, v =>
    if k = key then (key, v) :: fs else (k, w) :: setField fs key v

/-- Field removal, modelling a property set to `undefined` (as in
`{ ...stop, imageUrl: undefined }`), which `res.json` serialization
omits. -/
def removeField (fs : List (String × Json)) (key : String) :
    List (String × Json) :=
  fs.filter fun p => if p.1 = key then false else true

/-- Stand-in for JavaScript template-literal rendering `${v}` of a field
value inside the static-map URLs.  No claim inspects these rendered
fragments, so nested values are rendered shallowly and rationals by their
Lean representation. -/
def jsDisplayAtom : Json → String
  | .null => "null"
  | .bool b => if b then "true" else "false"
  | .num q => toString q
  | .str s => s
  | .arr _ => ""
  | .obj _ => "[object Object]"

def jsDisplay : Json → String
  | .arr xs => String.intercalate "," (xs.map jsDisplayAtom)
  | j => jsDisplayAtom j

def jsDisplayOpt : Option Json → String
  | none => "undefined"
  | some j => jsDisplay j

/-- Static-map URL for a stop (server.ts enrichment): centred on the stop
with a red marker. -/
def stopImageUrl (mapsKey : String) (stop : Json) : String :=
  "https://maps.googleapis.com/maps/api/staticmap?center=" ++
    jsDisplayOpt (stop.getField "lat") ++ "," ++
    jsDisplayOpt (stop.getField "lng") ++
    "&zoom=17&size=800x450&markers=color:red%7C" ++
    jsDisplayOpt (stop.getField "lat") ++ "," ++
    jsDisplayOpt (stop.getField "lng") ++
    "&key=" ++ mapsKey

/-- Static-map URL for a direction (server.ts enrichment): a path between
the two endpoints with distinct start and end markers. -/
def dirMapUrl (mapsKey : String) (dir : Json) : String :=
  "https://maps.googleapis.com/maps/api/staticmap?size=800x450&path=color:0x0000ff%7Cweight:5%7C" ++
    jsDisplayOpt ((dir.getField "fromLatLng").bind (fun j => j.getField "lat")) ++ "," ++
    jsDisplayOpt ((dir.getField "fromLatLng").bind (fun j => j.getField "lng")) ++ "%7C" ++
    jsDisplayOpt ((dir.getField "toLatLng").bind (fun j => j.getField "lat")) ++ "," ++
    jsDisplayOpt ((dir.getField "toLatLng").bind (fun j => j.getField "lng")) ++
    "&markers=color:blue%7Clabel:A%7C" ++
    jsDisplayOpt ((dir.getField "fromLatLng").bind (fun j => j.getField "lat")) ++ "," ++
    jsDisplayOpt ((dir.getField "fromLatLng").bind (fun j => j.getField "lng")) ++
    "&markers=color:green%7Clabel:B%7C" ++
    jsDisplayOpt ((dir.getField "toLatLng").bind (fun j => j.getField "lat")) ++ "," ++
    jsDisplayOpt ((dir.getField "toLatLng").bind (fun j => j.getField "lng")) ++
    "&key=" ++ mapsKey

/-- Per-stop enrichment `{ ...stop, imageUrl: stop.lat && stop.lng ? url :
undefined }` from server.ts.  A property assigned `undefined` is omitted by
`res.json`, so the falsy branch removes the field.  Faithful for object
stops (the only shape the response schema produces); non-object stops pass
through unchanged. -/
def enrichStop (mapsKey : String) (stop : Json) : Json :=
  match stop with
  | .obj fs =>
    if truthyOpt (lookupField fs "lat") && truthyOpt (lookupField fs "lng") then
      .obj (setField fs "imageUrl" (.str (stopImageUrl mapsKey (.obj fs))))
    else
      .obj (removeField fs "imageUrl")
  | other => other

/-- Per-direction enrichment `{ ...dir, mapUrl: dir.fromLatLng &&
dir.toLatLng ? url : undefined }` from server.ts. -/
def enrichDir (mapsKey : String) (dir : Json) : Json :=
  match dir with
  | .obj fs =>
    if truthyOpt (lookupField fs "fromLatLng") &&
        truthyOpt (lookupField fs "toLatLng") then
      .obj (setField fs "mapUrl" (.str (dirMapUrl mapsKey (.obj fs))))
    else
      .obj (removeField fs "mapUrl")
  | other => other

/-- The validation-and-defaults step of the handler:
`if (!tour.stops) tour.stops = []; if (!tour.directions) tour.directions = [];`. -/
def applyDefaults (fs : List (String × Json)) : List (String × Json) :=
  let f1 :=
    if truthyOpt (lookupField fs "stops") then fs
    else setField fs "stops" (.arr [])
  if truthyOpt (lookupField f1 "directions") then f1
  else setField f1 "directions" (.arr [])

/-- Whitespace test of JavaScript `String.prototype.trim` (common
whitespace characters; `String.trim` of Lean is not kernel-reducible, so
the trim is modelled directly on the character list). -/
def jsWhitespaceChar (c : Char) : Bool :=
  c == ' ' || c == '\t' || c == '\n' || c == '\r' ||
    c == Char.ofNat 11 || c == Char.ofNat 12

/-- Model of JavaScript `s.trim()`. -/
def jsTrim (s : String) : String :=
  String.mk (((s.data.dropWhile jsWhitespaceChar).reverse.dropWhile
    jsWhitespaceChar).reverse)

/-- The enrichment guard `MAPS_KEY && MAPS_KEY.trim() !== ""` of
server.ts. -/
def mapsKeyActive : Option String → Bool
  | none => false
  | some k => if k = "" then false else if jsTrim k = "" then false else true

/-- Enrichment block of the handler: when the credential guard passes, map
the stops and directions arrays to enriched objects.  JavaScript would
throw a TypeError if `tour.stops` (or `.directions`) were truthy but not an
array; that is surfaced as an error value. -/
def enrichTour (mapsKey : Option String) (fs : List (String × Json)) :
    Except String (List (String × Json)) :=
  match mapsKey with
  | none => .ok fs
  | some k =>
    if k = "" then .ok fs
    else if jsTrim k = "" then .ok fs
    else
      match lookupField fs "stops" with
      | some (.arr stops) =>
        let f1 := setField fs "stops" (.arr (stops.map (enrichStop k)))
        match lookupField f1 "directions" with
        | some (.arr dirs) =>
          .ok (setField f1 "directions" (.arr (dirs.map (enrichDir k))))
        | _ => .error "tour.directions.map is not a function"
      | _ => .error "tour.stops.map is not a function"

/-- Post-parse stage of the handler: defaults, then enrichment.  For a
parsed object this is faithful to server.ts; for a parsed array, property
assignment succeeds in JavaScript but `res.json` serializes only the
elements, so the array is returned unchanged; for primitives and `null`,
strict-mode property assignment throws a TypeError. -/
def processTour (mapsKey : Option String) (parsed : Json) :
    Except String Json :=
  match parsed with
  | .obj fs =>
    match enrichTour mapsKey (applyDefaults fs) with
    | .ok out => .ok (.obj out)
    | .error e => .error e
  | .arr xs => .ok (.arr xs)
  | _ => .error "cannot create property on a primitive value"

/-- JavaScript `a || b` on two possibly-absent environment strings
(`process.env.GEMINI_API_KEY || process.env.API_KEY`). -/
def jsOrOpt : Option String → Option String → Option String
  | none, b => b
  | some s, b => if s = "" then b else some s

/-- Embedding of `getAiClient` (server.ts): resolve the credential and
throw when it is missing, empty, or the placeholder value. -/
def getAiClient (geminiKey apiKey : Option String) : Except String String :=
  match jsOrOpt geminiKey apiKey with
  | none =>
    .error "Gemini API Key is missing or invalid. Please check your AI Studio secrets."
  | some k =>
    if k = "" then
      .error "Gemini API Key is missing or invalid. Please check your AI Studio secrets."
    else if k = "MY_GEMINI_API_KEY" then
      .error "Gemini API Key is missing or invalid. Please check your AI Studio secrets."
    else .ok k

/-- Error taxonomy of a tour-generation run, following the specification:
configuration (missing/placeholder credential), upstream (the model call
itself failed), parse (response body not valid JSON), plus a JavaScript
TypeError escape hatch for malformed parsed values. -/
inductive TourError where
  | config : String → TourError
  | upstream : String → TourError
  | parse : String → TourError
  | js : String → TourError
  deriving Repr, DecidableEq

def TourError.message : TourError → String
  | .config m => m
  | .upstream m => m
  | .parse m => m
  | .js m => m

/-- Embedding of the `/api/generate-tour` handler body (server.ts) up to
the response: validate the credential via `getAiClient`, perform the model
call, read `response.text || ""`, parse it as JSON, default missing
fields, and enrich.  `modelOutcome` stands for the awaited
`generateContent` result (exception message, or response with optional
text); `parsed` stands for the result of `JSON.parse` on the raw text
(`none` when that text is not valid JSON, in which case the handler throws
its fixed parse-failure message).  The Boolean records whether the
outbound model call was attempted in the run. -/
def runGenerateTour (geminiKey apiKey mapsKey : Option String)
    (modelOutcome : Except String (Option String)) (parsed : Option Json) :
    Bool × Except TourError Json :=
  match getAiClient geminiKey apiKey with
  | .error msg => (false, .error (.config msg))
  | .ok _ =>
    match modelOutcome with
    | .error msg => (true, .error (.upstream msg))
    | .ok _ =>
      match parsed with
      | none => (true, .error (.parse "Failed to parse AI response as JSON"))
      | some j =>
        (true,
          match processTour mapsKey j with
          | .ok out => .ok out
          | .error msg => .error (.js msg))

structure HttpResponse where
  status : ℕ
  body : Json

/-- The handler's HTTP boundary: success → `res.json(tour)` (status 200);
any thrown error → `res.status(500).json({ error: error.message ||
"Failed to generate tour" })`. -/
def handleGenerateTour (geminiKey apiKey mapsKey : Option String)
    (modelOutcome : Except String (Option String)) (parsed : Option Json) :
    HttpResponse :=
  match (runGenerateTour geminiKey apiKey mapsKey modelOutcome parsed).2 with
  | .ok j => { status := 200, body := j }
  | .error e =>
    { status := 500
      body := .obj [("error",
        .str (jsOrString (some e.message) "Failed to generate tour"))] }

/-! Field-access lemmas for the object model. -/

theorem lookupField_setField_self (fs : List (String × Json)) (key : String)
    (v : Json) : lookupField (setField fs key v) key = some v := by
  induction fs with
  | nil => simp [setField, lookupField]
  | cons p fs ih =>
    rcases p with ⟨k, w⟩
    by_cases h : k = key
    · simp [setField, h, lookupField]
    · simp [setField, h, lookupField, ih]

theorem lookupField_setField_ne (fs : List (String × Json)) (key key' : String)
    (v : Json) (h : key ≠ key') :
    lookupField (setField fs key v) key' = lookupField fs key' := by
  induction fs with
  | nil => simp [setField, lookupField, h]
  | cons p fs ih =>
    rcases p with ⟨k, w⟩
    by_cases hk : k = key
    · subst hk
      simp [setField, lookupField, h]
    · by_cases hk' : k = key'
      · subst hk'
        simp [setField, lookupField, hk]
      · simp [setField, hk, lookupField, hk', ih]

theorem lookupField_removeField_self (fs : List (String × Json))
    (key : String) : lookupField (removeField fs key) key = none := by
  induction fs with
  | nil => rfl
  | cons p fs ih =>
    rcases p with ⟨k, w⟩
    by_cases h : k = key
    · simpa [removeField, List.filter_cons, h] using ih
    · simpa [removeField, List.filter_cons, h, lookupField] using ih

/-- C4: for every structured-mode body parsing as a JSON object lacking
both the stops and the directions fields, the handler returns an itinerary
whose stops and directions are both empty arrays, and no error is thrown
(the result is an `ok` value for every map-credential state). -/
theorem missing_fields_defaulted (mapsKey : Option String)
    (fs : List (String × Json))
    (hs : lookupField fs "stops" = none)
    (hd : lookupField fs "directions" = none) :
    ∃ out, processTour mapsKey (.obj fs) = .ok (.obj out) ∧
      lookupField out "stops" = some (.arr []) ∧
      lookupField out "directions" = some (.arr []) := by
  have hts : truthyOpt (lookupField fs "stops") = false := by
    rw [hs]
    rfl
  have hf1 : applyDefaults fs =
      setField (setField fs "stops" (.arr [])) "directions" (.arr []) := by
    have h2 : lookupField (setField fs "stops" (Json.arr [])) "directions" =
        none := by
      rw [lookupField_setField_ne fs "stops" "directions" _ (by decide)]
      exact hd
    simp [applyDefaults, hs, h2, truthyOpt]
  have hstops : lookupField (applyDefaults fs) "stops" = some (.arr []) := by
    rw [hf1, lookupField_setField_ne _ "directions" "stops" _ (by decide),
      lookupField_setField_self]
  have hdirs : lookupField (applyDefaults fs) "directions" =
      some (.arr []) := by
    rw [hf1, lookupField_setField_self]
  match mapsKey with
  | none =>
    exact ⟨applyDefaults fs, by simp [processTour, enrichTour], hstops, hdirs⟩
  | some k =>
    by_cases h1 : k = ""
    · exact ⟨applyDefaults fs, by simp [processTour, enrichTour, h1], hstops,
        hdirs⟩
    · by_cases h2 : jsTrim k = ""
      · exact ⟨applyDefaults fs, by simp [processTour, enrichTour, h1, h2],
          hstops, hdirs⟩
      · refine ⟨setField (setField (applyDefaults fs) "stops" (.arr []))
          "directions" (.arr []), ?_, ?_, ?_⟩
        · have hld : lookupField (setField (applyDefaults fs) "stops"
              (Json.arr [])) "directions" = some (.arr []) := by
            rw [lookupField_setField_ne _ "stops" "directions" _ (by decide)]
            exact hdirs
          simp [processTour, enrichTour, h1, h2, hstops, hld]
        · rw [lookupField_setField_ne _ "directions" "stops" _ (by decide),
            lookupField_setField_self]
        · rw [lookupField_setField_self]

/-- Witness for `missing_fields_defaulted` on a parsed object with only a
tourName field and a configured map credential. -/
theorem missing_fields_defaulted_witness :
    lookupField [("tourName", Json.str "T")] "stops" = none ∧
    lookupField [("tourName", Json.str "T")] "directions" = none ∧
    ∃ out, processTour (some "KEY") (.obj [("tourName", Json.str "T")]) =
        .ok (.obj out) ∧
      lookupField out "stops" = some (.arr []) ∧
      lookupField out "directions" = some (.arr []) :=
  ⟨rfl, rfl, missing_fields_defaulted (some "KEY") _ rfl rfl⟩

theorem enrichTour_inactive {mapsKey : Option String}
    (h : mapsKeyActive mapsKey = false) (fs : List (String × Json)) :
    enrichTour mapsKey fs = .ok fs := by
  match mapsKey with
  | none => rfl
  | some k =>
    rw [mapsKeyActive] at h
    by_cases h1 : k = ""
    · simp [enrichTour, h1]
    · rw [if_neg h1] at h
      by_cases h2 : jsTrim k = ""
      · simp [enrichTour, h1, h2]
      · rw [if_neg h2] at h
        simp at h

/-- C7: when the map-image credential is absent or blank, a successfully
parsed itinerary is passed through unchanged with no error — in particular
every returned stop lacks an `imageUrl` field and every returned direction
lacks a `mapUrl` field, since the parsed (schema-shaped) ones lack them. -/
theorem enrichment_skipped_without_key (mapsKey : Option String)
    (hmk : mapsKeyActive mapsKey = false)
    (fs : List (String × Json)) (stops dirs : List Json)
    (hs : lookupField fs "stops" = some (.arr stops))
    (hd : lookupField fs "directions" = some (.arr dirs))
    (hstop : ∀ j ∈ stops, j.getField "imageUrl" = none)
    (hdir : ∀ j ∈ dirs, j.getField "mapUrl" = none) :
    processTour mapsKey (.obj fs) = .ok (.obj fs) ∧
      (∀ j ∈ stops, j.getField "imageUrl" = none) ∧
      (∀ j ∈ dirs, j.getField "mapUrl" = none) := by
  refine ⟨?_, hstop, hdir⟩
  have hts : truthyOpt (lookupField fs "stops") = true := by
    rw [hs]
    rfl
  have htd : truthyOpt (lookupField fs "directions") = true := by
    rw [hd]
    rfl
  have hdef : applyDefaults fs = fs := by simp [applyDefaults, hts, htd]
  simp [processTour, hdef, enrichTour_inactive hmk]

/-- Witness for `enrichment_skipped_without_key`: no credential, one
coordinate-bearing stop and one direction, both without enrichment
fields. -/
theorem enrichment_skipped_without_key_witness :
    mapsKeyActive none = false ∧
    processTour none (.obj
      [("stops", Json.arr [Json.obj
          [("name", Json.str "S"), ("lat", Json.num 1), ("lng", Json.num 2)]]),
        ("directions", Json.arr [Json.obj [("from", Json.str "A")]])]) =
      .ok (.obj
        [("stops", Json.arr [Json.obj
            [("name", Json.str "S"), ("lat", Json.num 1), ("lng", Json.num 2)]]),
          ("directions", Json.arr [Json.obj [("from", Json.str "A")]])]) := by
  refine ⟨rfl, ?_⟩
  have hstop : ∀ j ∈ [Json.obj
      [("name", Json.str "S"), ("lat", Json.num 1), ("lng", Json.num 2)]],
      j.getField "imageUrl" = none := by
    intro j hj
    rcases List.mem_singleton.1 hj with rfl
    rfl
  have hdir : ∀ j ∈ [Json.obj [("from", Json.str "A")]],
      j.getField "mapUrl" = none := by
    intro j hj
    rcases List.mem_singleton.1 hj with rfl
    rfl
  exact (enrichment_skipped_without_key none rfl
    [("stops", Json.arr [Json.obj
        [("name", Json.str "S"), ("lat", Json.num 1), ("lng", Json.num 2)]]),
      ("directions", Json.arr [Json.obj [("from", Json.str "A")]])]
    [Json.obj [("name", Json.str "S"), ("lat", Json.num 1), ("lng", Json.num 2)]]
    [Json.obj [("from", Json.str "A")]] rfl rfl hstop hdir).1

/-- C9: with a configured map credential, a stop receives an imageUrl
exactly when both lat and lng are truthy — so a stop whose lat or lng
equals 0 receives none, a zero coordinate behaving like a missing one —
and a direction receives a mapUrl exactly when both endpoint values are
truthy, hence only when both are present; the handler applies exactly
these per-element enrichments to the parsed stops and directions. -/
theorem enrichment_truthiness (k : String)
    (hk : mapsKeyActive (some k) = true) :
    (∀ stopFs : List (String × Json),
      ((enrichStop k (.obj stopFs)).getField "imageUrl").isSome =
        (truthyOpt (lookupField stopFs "lat") &&
          truthyOpt (lookupField stopFs "lng"))) ∧
    (∀ stopFs : List (String × Json),
      lookupField stopFs "lat" = some (.num 0) ∨
        lookupField stopFs "lng" = some (.num 0) →
      (enrichStop k (.obj stopFs)).getField "imageUrl" = none) ∧
    (∀ dirFs : List (String × Json),
      ((enrichDir k (.obj dirFs)).getField "mapUrl").isSome =
        (truthyOpt (lookupField dirFs "fromLatLng") &&
          truthyOpt (lookupField dirFs "toLatLng"))) ∧
    (∀ dirFs : List (String × Json),
      ((enrichDir k (.obj dirFs)).getField "mapUrl").isSome = true →
        lookupField dirFs "fromLatLng" ≠ none ∧
        lookupField dirFs "toLatLng" ≠ none) ∧
    (∀ (fs : List (String × Json)) (stops dirs : List Json),
      lookupField fs "stops" = some (.arr stops) →
      lookupField fs "directions" = some (.arr dirs) →
      processTour (some k) (.obj fs) =
        .ok (.obj (setField (setField fs "stops"
          (.arr (stops.map (enrichStop k)))) "directions"
          (.arr (dirs.map (enrichDir k)))))) := by
  have himg : ∀ stopFs : List (String × Json),
      ((enrichStop k (.obj stopFs)).getField "imageUrl").isSome =
        (truthyOpt (lookupField stopFs "lat") &&
          truthyOpt (lookupField stopFs "lng")) := by
    intro stopFs
    by_cases hc : (truthyOpt (lookupField stopFs "lat") &&
        truthyOpt (lookupField stopFs "lng")) = true
    · simp [enrichStop, hc, Json.getField, lookupField_setField_self]
    · have hc' := Bool.eq_false_iff.2 hc
      simp [enrichStop, hc', Json.getField, lookupField_removeField_self]
  have hmap : ∀ dirFs : List (String × Json),
      ((enrichDir k (.obj dirFs)).getField "mapUrl").isSome =
        (truthyOpt (lookupField dirFs "fromLatLng") &&
          truthyOpt (lookupField dirFs "toLatLng")) := by
    intro dirFs
    by_cases hc : (truthyOpt (lookupField dirFs "fromLatLng") &&
        truthyOpt (lookupField dirFs "toLatLng")) = true
    · simp [enrichDir, hc, Json.getField, lookupField_setField_self]
    · have hc' := Bool.eq_false_iff.2 hc
      simp [enrichDir, hc', Json.getField, lookupField_removeField_self]
  refine ⟨himg, ?_, hmap, ?_, ?_⟩
  · intro stopFs hzero
    have hc : (truthyOpt (lookupField stopFs "lat") &&
        truthyOpt (lookupField stopFs "lng")) = false := by
      rcases hzero with h | h <;>
        simp [h, truthyOpt, Json.truthy]
    simp [enrichStop, hc, Json.getField, lookupField_removeField_self]
  · intro dirFs hsome
    rw [hmap dirFs] at hsome
    rw [Bool.and_eq_true] at hsome
    obtain ⟨hf, ht⟩ := hsome
    constructor
    · intro hnone
      rw [hnone] at hf
      exact Bool.false_ne_true hf
    · intro hnone
      rw [hnone] at ht
      exact Bool.false_ne_true ht
  · intro fs stops dirs hs hd
    have h1 : ¬ k = "" := by
      intro h
      simp [mapsKeyActive, h] at hk
    have h2 : ¬ jsTrim k = "" := by
      intro h
      simp [mapsKeyActive, h1, h] at hk
    have hdef : applyDefaults fs = fs := by
      simp [applyDefaults, hs, hd, truthyOpt, Json.truthy]
    have hld : lookupField (setField fs "stops"
        (Json.arr (stops.map (enrichStop k)))) "directions" =
        some (.arr dirs) := by
      rw [lookupField_setField_ne fs "stops" "directions" _ (by decide)]
      exact hd
    simp [processTour, hdef, enrichTour, h1, h2, hs, hld]

/-- Witness for `enrichment_truthiness`: with credential KEY, a stop with
lat 0 and lng 5 receives no imageUrl, and a stop with lat 1 and lng 5
receives one. -/
theorem enrichment_truthiness_witness :
    mapsKeyActive (some "KEY") = true ∧
    (enrichStop "KEY"
      (.obj [("lat", Json.num 0), ("lng", Json.num 5)])).getField
        "imageUrl" = none ∧
    ((enrichStop "KEY"
      (.obj [("lat", Json.num 1), ("lng", Json.num 5)])).getField
        "imageUrl").isSome = true := by
  refine ⟨rfl, ?_, ?_⟩
  · exact (enrichment_truthiness "KEY" rfl).2.1 _ (Or.inl rfl)
  · rw [(enrichment_truthiness "KEY" rfl).1
      [("lat", Json.num 1), ("lng", Json.num 5)]]
    rfl

/-- C3 counterexample: invoking the grounded tour generation with the
placeholder credential attempts the outbound model call and raises no
configuration error — the repository code constructs the module-level
client without validating the credential in either variant. -/
theorem grounded_placeholder_attempts_call :
    (generateWalkingTourV1 (some "MY_GEMINI_API_KEY")
        (TourRequest.mk "Food tour" "Paris" 60 none)
        (.ok (GenaiResponse.mk (some "a tour") none))).2.1 = true ∧
    (∃ it, (generateWalkingTourV1 (some "MY_GEMINI_API_KEY")
        (TourRequest.mk "Food tour" "Paris" 60 none)
        (.ok (GenaiResponse.mk (some "a tour") none))).2.2 =
        .ok it) ∧
    (generateWalkingTourV2 (some "MY_GEMINI_API_KEY")
        (TourRequest.mk "Food tour" "Paris" 60 none)
        (.ok (GenaiResponse.mk (some "a tour") none))).2.1 = true :=
  ⟨rfl, ⟨_, rfl⟩, rfl⟩

/-- C3 corrected: the structured-mode endpoint fails with the configuration
error and attempts no model call whenever the resolved credential is
missing, empty, or the placeholder value; the grounded variants perform no
credential check and always attempt the call. -/
theorem credential_check_amended (gk ak mk : Option String)
    (mo : Except String (Option String)) (p : Option Json)
    (hbad : jsOrOpt gk ak = none ∨ jsOrOpt gk ak = some "" ∨
      jsOrOpt gk ak = some "MY_GEMINI_API_KEY") :
    runGenerateTour gk ak mk mo p =
      (false, .error (.config
        "Gemini API Key is missing or invalid. Please check your AI Studio secrets.")) ∧
    (∀ (ek : Option String) (req : TourRequest)
        (mo2 : Except String GenaiResponse),
      (generateWalkingTourV1 ek req mo2).2.1 = true) ∧
    (∀ (ek : Option String) (req : TourRequest)
        (mo2 : Except String GenaiResponse),
      (generateWalkingTourV2 ek req mo2).2.1 = true) := by
  refine ⟨?_, fun _ _ _ => rfl, fun _ _ _ => rfl⟩
  rcases hbad with h | h | h <;> simp [runGenerateTour, getAiClient, h]

/-- Witness for `credential_check_amended` at the placeholder credential. -/
theorem credential_check_amended_witness :
    (jsOrOpt (some "MY_GEMINI_API_KEY") none = none ∨
      jsOrOpt (some "MY_GEMINI_API_KEY") none = some "" ∨
      jsOrOpt (some "MY_GEMINI_API_KEY") none = some "MY_GEMINI_API_KEY") ∧
    runGenerateTour (some "MY_GEMINI_API_KEY") none none
        (.ok (some "body")) none =
      (false, .error (.config
        "Gemini API Key is missing or invalid. Please check your AI Studio secrets.")) :=
  ⟨Or.inr (Or.inr rfl),
    (credential_check_amended (some "MY_GEMINI_API_KEY") none none
      (.ok (some "body")) none (Or.inr (Or.inr rfl))).1⟩

/-- C5: with a valid credential, a successful model call whose body is not
valid JSON makes the run fail with the fixed parse error, while a failing
model call yields an upstream error carrying its own message; the two
failure kinds are distinguishable (distinct constructors). -/
theorem parse_error_distinguishable (gk ak mk : Option String) (key : String)
    (em : String) (textOpt : Option String)
    (hkey : getAiClient gk ak = .ok key) :
    runGenerateTour gk ak mk (.ok textOpt) none =
      (true, .error (.parse "Failed to parse AI response as JSON")) ∧
    runGenerateTour gk ak mk (.error em) none =
      (true, .error (.upstream em)) ∧
    (∀ m m' : String, TourError.parse m ≠ TourError.upstream m') := by
  refine ⟨?_, ?_, fun m m' h => TourError.noConfusion h⟩
  · simp [runGenerateTour, hkey]
  · simp [runGenerateTour, hkey]

/-- Witness for `parse_error_distinguishable` with a concrete valid key,
an invalid JSON body, and a concrete upstream failure. -/
theorem parse_error_distinguishable_witness :
    getAiClient (some "real-key") none = .ok "real-key" ∧
    runGenerateTour (some "real-key") none none (.ok (some "not json")) none =
      (true, .error (.parse "Failed to parse AI response as JSON")) ∧
    runGenerateTour (some "real-key") none none (.error "quota") none =
      (true, .error (.upstream "quota")) :=
  ⟨rfl,
    (parse_error_distinguishable (some "real-key") none none "real-key"
      "quota" (some "not json") rfl).1,
    (parse_error_distinguishable (some "real-key") none none "real-key"
      "quota" (some "not json") rfl).2.1⟩

/-- C8: every failing run of the endpoint yields a server-error response of
status 500 whose body is a single-field error object, regardless of which
failure kind (configuration, upstream, or parse) occurred — the kinds share
response shape and status. -/
theorem failure_response_shape (gk ak mk : Option String)
    (mo : Except String (Option String)) (p : Option Json) (e : TourError)
    (he : (runGenerateTour gk ak mk mo p).2 = .error e) :
    (handleGenerateTour gk ak mk mo p).status = 500 ∧
    ∃ m, (handleGenerateTour gk ak mk mo p).body =
      .obj [("error", .str m)] := by
  have hh : handleGenerateTour gk ak mk mo p =
      { status := 500
        body := .obj [("error",
          .str (jsOrString (some e.message) "Failed to generate tour"))] } := by
    rw [handleGenerateTour, he]
  rw [hh]
  exact ⟨rfl, ⟨_, rfl⟩⟩

/-- Witness for `failure_response_shape` on a run with a missing credential
(and, for comparison of shapes, the same holds on parse and upstream
failures by the same theorem). -/
theorem failure_response_shape_witness :
    (runGenerateTour none none none (.ok (some "body")) none).2 =
      .error (.config
        "Gemini API Key is missing or invalid. Please check your AI Studio secrets.") ∧
    (handleGenerateTour none none none (.ok (some "body")) none).status = 500 ∧
    ∃ m, (handleGenerateTour none none none (.ok (some "body")) none).body =
      .obj [("error", .str m)] :=
  ⟨rfl,
    (failure_response_shape none none none (.ok (some "body")) none _ rfl).1,
    (failure_response_shape none none none (.ok (some "body")) none _ rfl).2⟩
